import Mathlib

/-!
Verification development for the NameMatcher frontend client.

The repository is a browser client that shows candidate baby names as
swipeable cards.  The definitions below are a shallow embedding of the
two source components:

* `SwipeCard.tsx` — the drag-gesture card widget; its drag-release
  classifier `handleDragEnd` is embedded as a pure function from the
  final horizontal offset to an optional decision.
* `App.tsx` — the application controller; its state (`users`,
  `currentUser`, `names`, `loading`) is embedded as `AppState`, and the
  handlers `handleSwipe`, `fetchRecommendations` and the Switch button
  as explicit state-transition functions.  Network effects are made
  observable: a handler returns, besides the new state, the list of
  HTTP requests it issues, and the outcome of an awaited request is
  passed in as a parameter (`postOk` for the swipe POST, `resp` for the
  recommendations GET).
-/

namespace NameMatcher

/-- A user profile, from the `User` interface in `App.tsx`:
`{id: number, name: string}`. -/
structure User where
  id : Int
  name : String
deriving DecidableEq, Repr

/-- A candidate name, from the `Name` interface in `App.tsx`:
`{id, name, gender?, origin?, meaning?}`. -/
structure Name where
  id : Int
  name : String
  gender : Option String := none
  origin : Option String := none
  meaning : Option String := none
deriving DecidableEq, Repr

/-- The decision literal passed to `onSwipe`: `like | dislike | maybe`. -/
inductive Direction where
  | like
  | dislike
  | maybe
deriving DecidableEq, Repr

/-- The body of the `POST /swipe` request built in `handleSwipe`:
`{user_id, name_id, decision}`. -/
structure SwipeRequest where
  user_id : Int
  name_id : Int
  decision : Direction
deriving DecidableEq, Repr

/-- An HTTP request issued by the controller: either the swipe POST or
the recommendations GET (`fetchRecommendations()` call) for a user id. -/
inductive Request where
  | post (r : SwipeRequest)
  | fetchRecs (userId : Int)
deriving DecidableEq, Repr

/-- Whether a request is a recommendations (refill) fetch. -/
def Request.isFetch : Request → Bool
  | Request.fetchRecs _ => true
  | Request.post _ => false

/-- The swipe POST body carried by a request, if any. -/
def Request.postBody : Request → Option SwipeRequest
  | Request.post r => some r
  | Request.fetchRecs _ => none

/-- True when some request in the list is a recommendations fetch. -/
def fetchIssued (reqs : List Request) : Bool :=
  reqs.any Request.isFetch

/-- The controller state of `App` in `App.tsx`: the `users`,
`currentUser`, `names` (candidate queue) and `loading` `useState` cells. -/
structure AppState where
  users : List User
  currentUser : Option User
  names : List Name
  loading : Bool
deriving DecidableEq, Repr

/-- `handleDragEnd` from `SwipeCard.tsx` (lines 20–26): on drag release
with final horizontal offset `info.offset.x`, call `onSwipe('like')`
when the offset exceeds 100, `onSwipe('dislike')` when it is below
−100, and make no call otherwise.  The at-most-one call is the
`Option` result. -/
def handleDragEnd (offsetX : Int) : Option Direction :=
  if offsetX > 100 then some Direction.like
  else if offsetX < -100 then some Direction.dislike
  else none

/-- `handleSwipe` from `App.tsx` (lines 84–106).  Guard: if no user is
selected or the queue is empty, return immediately.  Otherwise POST
`{user_id, name_id, decision}` for the queue head; `postOk` is the
outcome of the awaited POST.  On success the head is popped
(`setNames(prev => prev.slice(1))`) and, when the *closure* value
`names.length` — the length before the pop — is `< 3`,
`fetchRecommendations()` is called.  On failure only the error is
logged.  Returns the new state and the requests issued. -/
def handleSwipe (s : AppState) (direction : Direction) (postOk : Bool) :
    AppState × List Request :=
  match s.currentUser, s.names with
  | none, _ => (s, [])
  | some _, [] => (s, [])
  | some u, currentName :: _ =>
      let postReq := Request.post
        { user_id := u.id, name_id := currentName.id, decision := direction }
      if postOk then
        let popped := { s with names := s.names.tail }
        if s.names.length < 3 then
          (popped, [postReq, Request.fetchRecs u.id])
        else
          (popped, [postReq])
      else
        (s, [postReq])

/-- `fetchRecommendations` from `App.tsx` (lines 71–82).  If no user is
active it returns at once.  Otherwise it sets `loading` before the
request and, when the awaited GET resolves, replaces `names` wholesale
with the response data on success or only logs on failure; `finally`
clears `loading`.  The result pairs the state while the request is in
flight with the state after it completes. -/
def fetchRecommendations (s : AppState) (resp : Except Unit (List Name)) :
    AppState × AppState :=
  match s.currentUser with
  | none => (s, s)
  | some _ =>
      let during := { s with loading := true }
      match resp with
      | Except.ok data => (during, { during with names := data, loading := false })
      | Except.error _ => (during, { during with loading := false })

/-- The Switch button of `App.tsx` (lines 179–184): its `onClick` is
exactly `setCurrentUser(null)`. -/
def switchProfile (s : AppState) : AppState :=
  { s with currentUser := none }

/-- The swipe-view card stack of `App.tsx` (lines 197–205):
`names.slice(0, 2).reverse().map((name, index) => ...)`, where the card
at `index` gets the live `handleSwipe` callback exactly when
`index === Math.min(names.length, 2) - 1` and the no-op `() => {}`
otherwise.  Each rendered card is paired with that liveness flag; the
cards are absolutely positioned, so the card rendered last is topmost. -/
def renderedCards (names : List Name) : List (Name × Bool) :=
  ((names.take 2).reverse).mapIdx
    (fun index name => (name, (index : Int) == min (names.length : Int) 2 - 1))

/-- The card stack of the older unnamed `App` variant
(`src/unnamed/part_000`, lines 155–162): identical except that the
liveness test is the hardcoded `index === 1`. -/
def renderedCardsV0 (names : List Name) : List (Name × Bool) :=
  ((names.take 2).reverse).mapIdx
    (fun index name => (name, index == 1))

/-- The callback wired to a rendered card: `handleSwipe` when the card
is live, the no-op `() => {}` (no state change, no request) otherwise. -/
def cardCallback (live : Bool) (s : AppState) (d : Direction) (postOk : Bool) :
    AppState × List Request :=
  if live then handleSwipe s d postOk else (s, [])

/-- The user `Kyle` of the specification scenario. -/
def kyle : User := { id := 1, name := "Kyle" }

/-- The user `Emily` of the specification scenario. -/
def emily : User := { id := 2, name := "Emily" }

/-- Candidate name `Ava` of the specification scenario. -/
def ava : Name := { id := 10, name := "Ava" }

/-- Candidate name `Liam` of the specification scenario. -/
def liam : Name := { id := 11, name := "Liam" }

/-- Candidate name `Noah` of the specification scenario. -/
def noah : Name := { id := 12, name := "Noah" }

/-- The specification scenario state: Kyle active, queue
`[Ava, Liam, Noah]`. -/
def s3 : AppState :=
  { users := [kyle, emily], currentUser := some kyle,
    names := [ava, liam, noah], loading := false }

/-- A state with an active user and a one-element queue. -/
def sSwipe : AppState :=
  { users := [kyle, emily], currentUser := some kyle,
    names := [ava], loading := false }

/-- Rendering a one-element queue yields the single card, live. -/
theorem renderedCards_one (hd : Name) : renderedCards [hd] = [(hd, true)] := by
  rfl

/-- Rendering a queue with at least two elements yields the second
card (not live) below and the head card (live) on top. -/
theorem renderedCards_two (hd b : Name) (t : List Name) :
    renderedCards (hd :: b :: t) = [(b, false), (hd, true)] := by
  simp [renderedCards]
  omega

/-- In the older variant of the controller (`src/unnamed/part_000`),
the hardcoded `index === 1` test leaves the lone card without the live
callback when exactly one name remains in the queue — a slip fixed in
`App.tsx` by `index === Math.min(names.length, 2) - 1`. -/
theorem renderedCardsV0_single (hd : Name) :
    renderedCardsV0 [hd] = [(hd, false)] := by
  rfl

/-- For queues of length at least two the older variant agrees with
`App.tsx`. -/
theorem renderedCardsV0_two (hd b : Name) (t : List Name) :
    renderedCardsV0 (hd :: b :: t) = [(b, false), (hd, true)] := by
  rfl

/-- Claim C1, counterexample.  On the specification scenario state
`s3` (active user Kyle, queue `[Ava, Liam, Noah]`), a successful like
pops the head, leaving a queue of length 2 < 3, yet no refill fetch is
issued — refuting "a refill fetch is issued if and only if the queue
length after the pop is strictly less than 3": the code tests the
pre-pop length held by the closure. -/
theorem claim_C1_cex :
    (handleSwipe s3 Direction.like true).1.names = [liam, noah] ∧
    (handleSwipe s3 Direction.like true).1.names.length < 3 ∧
    fetchIssued (handleSwipe s3 Direction.like true).2 = false := by
  decide

/-- Claim C1, amended.  For every decision submission on a non-empty
queue that succeeds and pops the head, a refill recommendation fetch
is issued if and only if the queue length *before* the pop is strictly
less than 3 — equivalently, iff the post-pop length is strictly less
than 2; if the post-pop length is 2 or more, no refill fetch is
issued. -/
theorem claim_C1 (us : List User) (ld : Bool) (u : User) (hd : Name)
    (rest : List Name) (d : Direction) :
    (handleSwipe (AppState.mk us (some u) (hd :: rest) ld) d true).1.names = rest ∧
    fetchIssued (handleSwipe (AppState.mk us (some u) (hd :: rest) ld) d true).2 =
      decide (rest.length < 2) := by
  by_cases h : (hd :: rest).length < 3
  · simp only [List.length_cons] at h
    simp [handleSwipe, fetchIssued, Request.isFetch, h, Nat.lt_succ_iff]
    omega
  · simp only [List.length_cons] at h
    simp [handleSwipe, fetchIssued, Request.isFetch, h, Nat.lt_succ_iff]
    omega

/-- Claim C2.  On drag release with final horizontal offset `x`: if
`x > 100` the widget reports `like`; if `x < −100` it reports
`dislike`; inside the closed dead zone `[−100, 100]` it reports
nothing; and a drag release never reports `maybe`. -/
theorem claim_C2 (x : Int) :
    (x > 100 → handleDragEnd x = some Direction.like) ∧
    (x < -100 → handleDragEnd x = some Direction.dislike) ∧
    (-100 ≤ x → x ≤ 100 → handleDragEnd x = none) ∧
    handleDragEnd x ≠ some Direction.maybe := by
  unfold handleDragEnd
  refine ⟨fun h => ?_, fun h => ?_, fun h1 h2 => ?_, ?_⟩
  · rw [if_pos h]
  · rw [if_neg (by omega), if_pos h]
  · rw [if_neg (by omega), if_neg (by omega)]
  · split_ifs <;> simp

/-- Claim C2, witness: the specification examples.  Offset +150
classifies as like, −150 as dislike, ±50 as no-op. -/
theorem claim_C2_witness :
    handleDragEnd 150 = some Direction.like ∧
    handleDragEnd (-150) = some Direction.dislike ∧
    handleDragEnd 50 = none ∧
    handleDragEnd (-50) = none :=
  ⟨(claim_C2 150).1 (by decide),
   (claim_C2 (-150)).2.1 (by decide),
   (claim_C2 50).2.2.1 (by decide) (by decide),
   (claim_C2 (-50)).2.2.1 (by decide) (by decide)⟩

/-- Claim C3.  On a non-empty queue, a decision submission whose POST
succeeds removes exactly the head: the resulting state is the old one
with the queue replaced by its tail — every other element, their
order, and all other state cells are preserved. -/
theorem claim_C3 (us : List User) (ld : Bool) (u : User) (hd : Name)
    (rest : List Name) (d : Direction) :
    (handleSwipe (AppState.mk us (some u) (hd :: rest) ld) d true).1 =
      AppState.mk us (some u) rest ld := by
  by_cases h : rest.length + 1 < 3 <;> simp [handleSwipe, h]

/-- Claim C4.  On a non-empty queue, if the decision-submission POST
fails, the state is left completely unchanged — the head is not
popped — and no refill fetch is triggered by that submission. -/
theorem claim_C4 (us : List User) (ld : Bool) (u : User) (hd : Name)
    (rest : List Name) (d : Direction) :
    (handleSwipe (AppState.mk us (some u) (hd :: rest) ld) d false).1 =
      AppState.mk us (some u) (hd :: rest) ld ∧
    fetchIssued (handleSwipe (AppState.mk us (some u) (hd :: rest) ld) d false).2 =
      false := by
  exact ⟨rfl, rfl⟩

/-- Claim C5, counterexample.  On a state with an active user (Kyle)
and the non-empty queue `[Ava]`, the Switch button clears the user but
does *not* set the candidate queue to empty, refuting "sets the active
user to none and sets the candidate queue to empty". -/
theorem claim_C5_cex :
    sSwipe.currentUser = some kyle ∧
    ¬ ((switchProfile sSwipe).currentUser = none ∧
        (switchProfile sSwipe).names = []) := by
  decide

/-- Claim C5, amended.  The Switch-profile operation, from any state
with an active user, sets the active user to none — returning the
application to the profile-selection screen — and leaves the candidate
queue (and all other state) unchanged; the stale queue is only
replaced by the fetch triggered by the next profile selection. -/
theorem claim_C5 (us : List User) (u : User) (ns : List Name) (ld : Bool) :
    switchProfile (AppState.mk us (some u) ns ld) =
      AppState.mk us none ns ld := by
  rfl

/-- Claim C6.  For every non-empty queue the swipe view renders at
most two stacked cards; the topmost (last rendered) card is the queue
head and is the only live one; every card below carries the no-op
flag; and invoking the no-op callback changes no state and issues no
request. -/
theorem claim_C6 (hd : Name) (rest : List Name) (s : AppState)
    (d : Direction) (postOk : Bool) :
    (renderedCards (hd :: rest)).length ≤ 2 ∧
    (renderedCards (hd :: rest)).getLast? = some (hd, true) ∧
    ((renderedCards (hd :: rest)).dropLast.all fun card => !card.2) = true ∧
    cardCallback false s d postOk = (s, []) := by
  refine ⟨?_, ?_, ?_, rfl⟩ <;>
    cases rest <;> simp [renderedCards_one, renderedCards_two]

/-- Claim C7.  With a user active, the recommendations fetch sets the
loading flag while the request is in flight and clears it when the
request completes; on success it replaces the queue wholesale with the
server response, on failure it leaves the queue unchanged. -/
theorem claim_C7 (us : List User) (u : User) (ns : List Name) (ld : Bool)
    (resp : Except Unit (List Name)) :
    (fetchRecommendations (AppState.mk us (some u) ns ld) resp).1.loading = true ∧
    (fetchRecommendations (AppState.mk us (some u) ns ld) resp).2.loading = false ∧
    (fetchRecommendations (AppState.mk us (some u) ns ld) resp).2.names =
      (match resp with
        | Except.ok data => data
        | Except.error _ => ns) := by
  cases resp <;> exact ⟨rfl, rfl, rfl⟩

/-- Claim C8.  With user `u` active and head candidate `hd`, submitting
a decision `d` issues exactly one POST, whose body is
`{user_id := u.id, name_id := hd.id, decision := d}` — whatever the
POST outcome and queue length. -/
theorem claim_C8 (us : List User) (ld : Bool) (u : User) (hd : Name)
    (rest : List Name) (d : Direction) (postOk : Bool) :
    ((handleSwipe (AppState.mk us (some u) (hd :: rest) ld) d postOk).2.filterMap
        Request.postBody) =
      [{ user_id := u.id, name_id := hd.id, decision := d }] := by
  cases postOk
  · rfl
  · by_cases h : rest.length + 1 < 3 <;>
      simp [handleSwipe, h, Request.postBody]

/-- Claim C9.  Invoking the decision-submission handler with no user
selected, or with an empty candidate queue, is a total no-op: the
state is returned unchanged and no request of any kind is issued. -/
theorem claim_C9 (us : List User) (cu : Option User) (ns : List Name)
    (ld : Bool) (d : Direction) (postOk : Bool) :
    handleSwipe (AppState.mk us none ns ld) d postOk =
      (AppState.mk us none ns ld, []) ∧
    handleSwipe (AppState.mk us cu [] ld) d postOk =
      (AppState.mk us cu [] ld, []) := by
  refine ⟨rfl, ?_⟩
  cases cu <;> rfl

/-- Claim C10.  A drag release at offset exactly +100 or exactly −100
lies inside the dead zone: both threshold comparisons are strict, so
no decision is reported. -/
theorem claim_C10 : handleDragEnd 100 = none ∧ handleDragEnd (-100) = none := by
  decide

end NameMatcher
